import Mathlib

/-!
Verification development for the movie-repository ingestion pipeline
(`src/movie_repository/infra/fetch.py`).

The embedding models the checkpointed orchestrator
`abstract_run_with_checkpoint`, the per-source adapters (`Bilibili`,
`Tencent`, `IQiYi`) and the defensive score coercion
`safe_float_conversion`.  Stateful Python code is embedded as explicit
state passing over a `SysState` record; code that can raise returns
`Except PyErr`.  Timestamps are modelled by a monotone natural-number
clock; `datetime.now()` reads the clock and advances it, so later reads
are strictly larger.  Network responses are inputs to the adapter
functions, and per-item enrichment requests (`fetch_actors`,
`get_movie_detail`) are oracles passed as function arguments.
-/

/-- Python exception kinds raised by the code under study. -/
inductive PyErr where
  | valueError (msg : String)
  | typeError (msg : String)
  | indexError
  | transportError
  | persistenceError
deriving DecidableEq, Repr

/-- Dynamically typed Python values reaching the score coercion:
strings, numbers (int and float merged, modelled as rationals), None. -/
inductive PyValue where
  | str (s : String)
  | num (r : Rat)
  | pyNone
deriving DecidableEq, Repr

/-- Take the leading decimal digits of a character list. -/
def takeDigits : List Char → List Char × List Char
  | [] => ([], [])
  | c :: cs =>
    if c.isDigit then
      let (ds, rest) := takeDigits cs
      (c :: ds, rest)
    else ([], c :: cs)

/-- Numeric value of a digit list (most significant first). -/
def digitsToNat (ds : List Char) : Nat :=
  ds.foldl (fun acc c => acc * 10 + (c.toNat - 48)) 0

/-- Parse an exponent suffix (empty, or e/E with optional sign and digits)
applied to an already-parsed mantissa. -/
def parseExpPart (base : Rat) : List Char → Option Rat
  | [] => some base
  | c :: rest =>
    if c = 'e' ∨ c = 'E' then
      let (neg, rest2) :=
        match rest with
        | '+' :: r2 => (false, r2)
        | '-' :: r2 => (true, r2)
        | r2 => (false, r2)
      let (ds, rest3) := takeDigits rest2
      if ds.isEmpty ∨ ¬ rest3.isEmpty then none
      else if neg then some (base / (10 : Rat) ^ digitsToNat ds)
      else some (base * (10 : Rat) ^ digitsToNat ds)
    else none

/-- Parse an unsigned decimal literal: digits, an optional fractional
part, an optional exponent; at least one digit is required. -/
def parseUnsigned (cs : List Char) : Option Rat :=
  let (ip, rest) := takeDigits cs
  match rest with
  | '.' :: rest2 =>
    let (fp, rest3) := takeDigits rest2
    if ip.isEmpty ∧ fp.isEmpty then none
    else
      parseExpPart
        ((digitsToNat ip : Rat) + (digitsToNat fp : Rat) / (10 : Rat) ^ fp.length)
        rest3
  | _ =>
    if ip.isEmpty then none
    else parseExpPart (digitsToNat ip : Rat) rest

/-- Model of CPython string-to-float parsing for plain decimal literals
(sign, digits, optional fraction and exponent); special forms such as
inf/nan/underscores are outside the domain the repository feeds it. -/
def pyFloatOfString (s : String) : Option Rat :=
  match s.toList with
  | '+' :: cs => parseUnsigned cs
  | '-' :: cs => (parseUnsigned cs).map (fun r => -r)
  | cs => parseUnsigned cs

/-- Model of the Python builtin float constructor: a string parses or
raises ValueError; a number converts; None raises TypeError. -/
def pyFloatBuiltin : PyValue → Except PyErr Rat
  | PyValue.str s =>
    match pyFloatOfString s with
    | some r => Except.ok r
    | none => Except.error (PyErr.valueError "could not convert string to float")
  | PyValue.num r => Except.ok r
  | PyValue.pyNone =>
    Except.error (PyErr.typeError "float() argument must be a string or a number")

/-- Embedding of `safe_float_conversion` (fetch.py lines 24-29): calls
float(value) and returns the default on ValueError only; any other
exception (TypeError for None) propagates. -/
def safe_float_conversion (value : PyValue) (default : Rat := -1) : Except PyErr Rat :=
  match pyFloatBuiltin value with
  | Except.ok r => Except.ok r
  | Except.error (PyErr.valueError _) => Except.ok default
  | Except.error e => Except.error e

/-- Trace status values (`Status` in warmup.py).  Modelled from the spec:
status of a trace event is PENDING or FINISHED. -/
inductive Status where
  | PENDING
  | FINISHED
deriving DecidableEq, Repr

/-- Modelled from the spec: a task id produced by `generate_key`
(warmup.py, not under src/) is an opaque unique identifier scoped to a
category; uniqueness is realised by a per-process serial counter. -/
structure TaskId where
  category : String
  serial : Nat
deriving DecidableEq, Repr

/-- One trace event as emitted by `put_batch_trace` / `put_db_trace`:
task id, source platform, batch index, page size, status, begin
timestamp, and an end timestamp present only at FINISHED. -/
structure TraceEvent where
  task_id : TaskId
  source : String
  batch : Nat
  pagesize : Nat
  status : Status
  beginTime : Nat
  endTime : Option Nat
deriving DecidableEq, Repr

/-- Canonical entity produced by every adapter.  Modelled from the spec:
`MovieEntity` (movie_repository.entity, imported by fetch.py but not
under src/) carries title, cover reference, description, numeric score
with sentinel -1.0, actors, directors, genre tags, release date and a
string metadata mapping; field names follow the constructor keywords
used in fetch.py. -/
structure MovieEntity where
  title : String
  cover_url : String
  intro : String
  score : Rat
  actors : List String
  directors : List String := []
  movie_type : List String := []
  release_date : String
  metadata : List (String × String)
deriving DecidableEq, Repr

/-- A persistence-ready record; `asdict` flattens a dataclass to a dict
with the same fields, so documents are represented by the entity. -/
abbrev Document := MovieEntity

/-- Embedding of `dataclasses.asdict` on a MovieEntity. -/
def asdict (m : MovieEntity) : Document := m

/-- World state threaded through one orchestrator invocation: the
monotone clock, the key-generator counter, the two append-only trace
logs, the list of insert_many calls received by the storage sink, the
raw snapshot cache keys, and the number of rate-limit sleeps taken. -/
structure SysState where
  clock : Nat
  keyCtr : Nat
  batchTrace : List TraceEvent
  dbTrace : List TraceEvent
  sinkCalls : List (List Document)
  snapshots : List (String × Nat)
  sleeps : Nat
deriving DecidableEq, Repr

/-- The all-empty starting state. -/
def initState : SysState :=
  { clock := 0, keyCtr := 0, batchTrace := [], dbTrace := [],
    sinkCalls := [], snapshots := [], sleeps := 0 }

/-- Modelled from the spec: `generate_key(category)` (warmup.py, not
under src/) returns an identifier distinct from every one previously
returned, realised by stamping and bumping the serial counter. -/
def generate_key (category : String) (s : SysState) : TaskId × SysState :=
  (⟨category, s.keyCtr⟩, { s with keyCtr := s.keyCtr + 1 })

/-- Reading `datetime.now()`: returns the current clock and advances it,
so any later reading is strictly greater. -/
def now (s : SysState) : Nat × SysState :=
  (s.clock, { s with clock := s.clock + 1 })

/-- Modelled from the spec: `WarmupHandler.put_batch_trace` (warmup.py,
not under src/) appends one immutable batch-namespace event. -/
def put_batch_trace (s : SysState) (task_id : TaskId) (source : String)
    (batch pagesize : Nat) (status : Status) (beginTime : Nat)
    (endTime : Option Nat) : SysState :=
  { s with batchTrace :=
      s.batchTrace ++ [⟨task_id, source, batch, pagesize, status, beginTime, endTime⟩] }

/-- Modelled from the spec: `WarmupHandler.put_db_trace` (warmup.py, not
under src/) appends one immutable persistence-namespace event. -/
def put_db_trace (s : SysState) (task_id : TaskId) (source : String)
    (batch pagesize : Nat) (status : Status) (beginTime : Nat)
    (endTime : Option Nat) : SysState :=
  { s with dbTrace :=
      s.dbTrace ++ [⟨task_id, source, batch, pagesize, status, beginTime, endTime⟩] }

/-- Embedding of `asyncio.sleep(secs)`: time passes and one quality-of-
service sleep is recorded. -/
def sleep (secs : Nat) (s : SysState) : SysState :=
  { s with clock := s.clock + secs, sleeps := s.sleeps + 1 }

/-- An adapter fetch closure: from a world state, either a list of
entities or a raised exception, plus the successor state. -/
abbrev Fetch := SysState → Except PyErr (List MovieEntity) × SysState

/-- A storage sink (`collection.insert_many`): receives the documents
and either acknowledges or raises. -/
abbrev Sink := List Document → SysState → Except PyErr Unit × SysState

/-- Embedding of `abstract_run_with_checkpoint` (fetch.py lines 38-69):
allocate a batch task id, record PENDING, await the fetch, record
FINISHED, flatten entities, allocate a persistence task id, record
PENDING, insert_many, record FINISHED, sleep, return the documents.  A
raised exception propagates immediately with the state reached so far. -/
def abstract_run_with_checkpoint (platform : String) (collection : Sink)
    (page pagesize : Nat) (async_func : Fetch) (s0 : SysState) :
    Except PyErr (List Document) × SysState :=
  let (batch_task_id, s1) := generate_key "BATCH.TASK" s0
  let (batch_begin_time, s2) := now s1
  let s3 := put_batch_trace s2 batch_task_id platform page pagesize
    Status.PENDING batch_begin_time none
  match async_func s3 with
  | (Except.error e, sE) => (Except.error e, sE)
  | (Except.ok batch_results, s4) =>
    let (batch_end_time, s5) := now s4
    let s6 := put_batch_trace s5 batch_task_id platform page pagesize
      Status.FINISHED batch_begin_time (some batch_end_time)
    let documents := batch_results.map asdict
    let (db_task_id, s7) := generate_key "DB.TASK" s6
    let (db_begin_time, s8) := now s7
    let s9 := put_db_trace s8 db_task_id platform page pagesize
      Status.PENDING db_begin_time none
    match collection documents s9 with
    | (Except.error e, sE2) => (Except.error e, sE2)
    | (Except.ok _, s10) =>
      let (db_end_time, s11) := now s10
      let s12 := put_db_trace s11 db_task_id platform page pagesize
        Status.FINISHED db_begin_time (some db_end_time)
      let s13 := sleep 1 s12
      (Except.ok documents, s13)

/-- Sequential join of fallible per-item computations: the semantics of
both `asyncio.gather` over enrichment tasks and of the sequential parse
loops — all items must succeed, the first raised exception fails the
whole call and no partial list is returned. -/
def gatherE {α β : Type} (f : α → Except PyErr β) : List α → Except PyErr (List β)
  | [] => Except.ok []
  | x :: xs =>
    match f x, gatherE f xs with
    | Except.error e, _ => Except.error e
    | Except.ok _, Except.error e => Except.error e
    | Except.ok y, Except.ok ys => Except.ok (y :: ys)

namespace Bilibili

/-- The shared class-level `Bilibili.params` dictionary (fetch.py lines
78-90). -/
structure Params where
  area : Int
  style_id : Int
  release_date : Int
  season_status : Int
  order : Int
  st : Int
  season_type : Int
  sort : Int
  page : Int
  pagesize : Int
  type : Int
deriving DecidableEq, Repr

/-- Class attribute `Bilibili.pagesize`. -/
def pagesize : Nat := 60

/-- Class attribute `Bilibili.platform`. -/
def platform : String := "bilibili"

/-- The initial value of the shared `Bilibili.params` dictionary. -/
def params : Params :=
  { area := -1, style_id := -1, release_date := -1, season_status := -1,
    order := 2, st := 2, season_type := 2, sort := 0, page := 0,
    pagesize := 0, type := 1 }

/-- One element of `data.list` in the Bilibili response; nested lookups
such as `item['first_ep']['ep_id']` are flattened into one field. -/
structure Item where
  first_ep_ep_id : Nat
  title : String
  cover : String
  subTitle : Option String
  score : Option PyValue
  index_show : String
  order : String
  link : String
deriving DecidableEq, Repr

/-- The `data` member of the Bilibili response; `listField` models the
optional `list` key. -/
structure RawData where
  listField : Option (List Item)
deriving DecidableEq, Repr

/-- The parsed JSON body of the Bilibili list response; `data` may be
absent. -/
structure Raw where
  data : Option RawData
deriving DecidableEq, Repr

/-- An HTTP response from the Bilibili list endpoint: status code and
parsed body. -/
structure Resp where
  status : Nat
  body : Raw
deriving DecidableEq, Repr

/-- Embedding of `Bilibili.create_movie_entity` (fetch.py lines
115-131); `fetch_actors` is the per-item enrichment request, an oracle
from ep id to actor list or a raised error. -/
def create_movie_entity (fetch_actors : String → Except PyErr (List String))
    (item : Item) (eq_id : String) : Except PyErr MovieEntity := do
  let actors ← fetch_actors eq_id
  let score ← safe_float_conversion (item.score.getD (PyValue.str "")) (-1)
  Except.ok
    { title := item.title
      cover_url := item.cover
      intro := item.subTitle.getD ""
      score := score
      actors := actors
      release_date := item.index_show.stripSuffix "上映"
      metadata :=
        [("source", "Bilibili"), ("id", eq_id),
         ("order", item.order.stripSuffix "次播放"), ("url", item.link)] }

/-- Embedding of `Bilibili.handle_data` (fetch.py lines 101-113): if the
`data` and `list` keys are present, build one entity per item with the
enrichment tasks joined all-or-nothing; otherwise an empty list. -/
def handle_data (fetch_actors : String → Except PyErr (List String))
    (raw_film_data : Raw) : Except PyErr (List MovieEntity) :=
  match raw_film_data.data with
  | none => Except.ok []
  | some data_film_data =>
    match data_film_data.listField with
    | none => Except.ok []
    | some film_data =>
      gatherE
        (fun item => create_movie_entity fetch_actors item (toString item.first_ep_ep_id))
        film_data

/-- Embedding of `Bilibili.raw_fetch_async` (fetch.py lines 133-146):
mutates the shared params in place (page, pagesize), issues the request,
and on a 200 status parses the body; on any other status it falls
through to `return []`.  Returns the shared params as left after the
call together with the fetch outcome. -/
def raw_fetch_async (fetch_actors : String → Except PyErr (List String))
    (resp : Resp) (page : Nat) (shared : Params) :
    Params × Except PyErr (List MovieEntity) :=
  let shared2 := { shared with page := (page : Int), pagesize := (Bilibili.pagesize : Int) }
  if resp.status = 200 then
    (shared2, handle_data fetch_actors resp.body)
  else
    (shared2, Except.ok [])

end Bilibili

namespace Tencent

/-- Class attribute `Tencent.pagesize`. -/
def pagesize : Nat := 30

/-- Class attribute `Tencent.platform`. -/
def platform : String := "tencent"

/-- The `page_context` member of the shared payload. -/
structure PageContext where
  page_index : String
deriving DecidableEq, Repr

/-- The `page_params` member of the shared payload. -/
structure PageParams where
  page_id : String
  page_type : String
  channel_id : String
  filter_params : String
  page : String
  new_mark_label_enabled : String
deriving DecidableEq, Repr

/-- The inner `params` member of `page_bypass_params`. -/
structure BypassInner where
  page_id : String
  page_type : String
  channel_id : String
  filter_params : String
  page : String
  caller_id : String
  platform_id : String
  data_mode : String
  user_mode : String
deriving DecidableEq, Repr

/-- The `page_bypass_params` member of the shared payload. -/
structure BypassParams where
  params : BypassInner
  scene : String
  abtest_bypass_id : String
deriving DecidableEq, Repr

/-- The shared class-level `Tencent.payload` dictionary (fetch.py lines
166-193). -/
structure Payload where
  page_context : PageContext
  page_params : PageParams
  page_bypass_params : BypassParams
deriving DecidableEq, Repr

/-- The initial value of the shared `Tencent.payload` dictionary. -/
def payload : Payload :=
  { page_context := { page_index := "1" }
    page_params :=
      { page_id := "channel_list_second_page", page_type := "operation",
        channel_id := "100173", filter_params := "", page := "1",
        new_mark_label_enabled := "1" }
    page_bypass_params :=
      { params :=
          { page_id := "channel_list_second_page", page_type := "operation",
            channel_id := "100173", filter_params := "", page := "1",
            caller_id := "3000010", platform_id := "2",
            data_mode := "default", user_mode := "default" }
        scene := "operation", abtest_bypass_id := "747ad9f34a4c8887" } }

/-- One card of a card list; the nested `item['params']` lookups are
flattened into fields. -/
structure Item where
  cid : String
  title : String
  main_genre : String
  area_name : String
  epsode_pubtime : String
deriving DecidableEq, Repr

/-- One member of `data.CardList`; the path
`children_list.list.cards` is flattened to `cards`. -/
structure Card where
  cards : List Item
deriving DecidableEq, Repr

/-- The parsed JSON body of the Tencent page response. -/
structure Raw where
  ret : Int
  msg : String
  cardList : List Card
deriving DecidableEq, Repr

/-- Embedding of `Tencent.get_movies` (fetch.py lines 195-221): mutates
the three page fields of the shared payload in place, posts the request
(the parsed body is the input `raw`), raises ValueError on a non-zero
`ret`, picks `CardList[1]` falling back to `CardList[0]` on IndexError,
and joins the per-card `get_movie_detail` enrichment requests
all-or-nothing.  Returns the shared payload as left after the call
together with the fetch outcome. -/
def get_movies (get_movie_detail : String → Item → Except PyErr MovieEntity)
    (raw : Raw) (page : Nat) (shared : Payload) :
    Payload × Except PyErr (List MovieEntity) :=
  let shared2 :=
    { shared with
        page_context := { shared.page_context with page_index := toString page }
        page_params := { shared.page_params with page := toString page }
        page_bypass_params :=
          { shared.page_bypass_params with
              params := { shared.page_bypass_params.params with page := toString page } } }
  if raw.ret ≠ 0 then
    (shared2, Except.error (PyErr.valueError raw.msg))
  else
    match raw.cardList.get? 1 with
    | some card =>
      (shared2, gatherE (fun item => get_movie_detail item.cid item) card.cards)
    | none =>
      match raw.cardList.get? 0 with
      | some card =>
        (shared2, gatherE (fun item => get_movie_detail item.cid item) card.cards)
      | none => (shared2, Except.error PyErr.indexError)

end Tencent

namespace IQiYi

/-- Class attribute `IQiYi.pagesize`. -/
def pagesize : Nat := 24

/-- Class attribute `IQiYi.platform`. -/
def platform : String := "iqiyi"

/-- The shared class-level `IQiYi.params` dictionary (fetch.py lines
282-286). -/
structure Params where
  ret_num : String
  channel_id : String
  page_id : String
deriving DecidableEq, Repr

/-- The initial value of the shared `IQiYi.params` dictionary. -/
def params : Params :=
  { ret_num := "60", channel_id := "1", page_id := "0" }

/-- One element of `data` in the IQiYi response; nested lookups (date
fields, creator and contributor name lists) are flattened. -/
structure Item where
  title : String
  album_image_url_hover : String
  creator : List String
  contributor : List String
  year : Nat
  month : Nat
  day : Nat
  description : String
  sns_score : Option PyValue
  tag : Option String
  uploader_id : String
  order : String
  entity_id : String
  album_id : String
  tv_id : String
deriving DecidableEq, Repr

/-- The parsed JSON body of the IQiYi response. -/
structure Raw where
  data : List Item
deriving DecidableEq, Repr

/-- Translation of one IQiYi item into a canonical entity, mirroring the
loop body of `IQiYi.raw_fetch_async` (fetch.py lines 297-317). -/
def parse_item (d : Item) : Except PyErr MovieEntity := do
  let score ← safe_float_conversion (d.sns_score.getD (PyValue.str "")) (-1)
  Except.ok
    { title := d.title
      cover_url := d.album_image_url_hover
      directors := d.creator
      actors := d.contributor
      release_date := toString d.year ++ "-" ++ toString d.month ++ "-" ++ toString d.day
      intro := d.description
      score := score
      movie_type := (d.tag.getD "").splitOn ";"
      metadata :=
        [("source", "iQiYi"), ("uploader_id", d.uploader_id),
         ("batch_order", d.order), ("entity_id", d.entity_id),
         ("album_id", d.album_id), ("tv_id", d.tv_id)] }

/-- Embedding of `IQiYi.raw_fetch_async` (fetch.py lines 288-318):
mutates the shared params in place (page_id), issues the request, and
parses each element of `data` sequentially; a failure in any item raises
out of the loop.  Returns the shared params as left after the call
together with the fetch outcome. -/
def raw_fetch_async (raw : Raw) (page : Nat) (shared : Params) :
    Params × Except PyErr (List MovieEntity) :=
  let shared2 := { shared with page_id := toString page }
  (shared2, gatherE parse_item raw.data)

end IQiYi

/-- An adapter fetch that succeeds with a fixed list of entities from
every state, touching neither trace log, the sink-call log, the key
counter, nor the sleep count, and only moving the clock forward — what
any real adapter call that returns `ents` without failing does to the
instrumented world. -/
def fetchReturns (f : Fetch) (ents : List MovieEntity) : Prop :=
  ∀ s, ∃ s2, f s = (Except.ok ents, s2) ∧
    s2.batchTrace = s.batchTrace ∧ s2.dbTrace = s.dbTrace ∧
    s2.sinkCalls = s.sinkCalls ∧ s2.keyCtr = s.keyCtr ∧
    s.clock ≤ s2.clock ∧ s2.sleeps = s.sleeps

/-- An adapter fetch that raises `e` from every state, with the same
frame as `fetchReturns`. -/
def fetchFails (f : Fetch) (e : PyErr) : Prop :=
  ∀ s, ∃ s2, f s = (Except.error e, s2) ∧
    s2.batchTrace = s.batchTrace ∧ s2.dbTrace = s.dbTrace ∧
    s2.sinkCalls = s.sinkCalls ∧ s2.keyCtr = s.keyCtr ∧
    s.clock ≤ s2.clock ∧ s2.sleeps = s.sleeps

/-- A storage sink that acknowledges every insert_many call, records the
received batch in the sink-call log, and touches nothing else but the
clock. -/
def sinkAppends (c : Sink) : Prop :=
  ∀ docs s, ∃ s2, c docs s = (Except.ok (), s2) ∧
    s2.sinkCalls = s.sinkCalls ++ [docs] ∧
    s2.batchTrace = s.batchTrace ∧ s2.dbTrace = s.dbTrace ∧
    s2.keyCtr = s.keyCtr ∧ s.clock ≤ s2.clock ∧ s2.sleeps = s.sleeps

/-- A storage sink whose insert_many raises `e` from every state,
leaving the trace logs and the sleep count alone. -/
def sinkFails (c : Sink) (e : PyErr) : Prop :=
  ∀ docs s, ∃ s2, c docs s = (Except.error e, s2) ∧
    s2.batchTrace = s.batchTrace ∧ s2.dbTrace = s.dbTrace ∧
    s2.keyCtr = s.keyCtr ∧ s.clock ≤ s2.clock ∧ s2.sleeps = s.sleeps

/-- A pure stubbed adapter returning a fixed entity list. -/
def stubFetch (ents : List MovieEntity) : Fetch :=
  fun s => (Except.ok ents, s)

/-- A stubbed adapter that raises. -/
def failFetch (e : PyErr) : Fetch :=
  fun s => (Except.error e, s)

/-- The well-behaved storage sink: append the received batch. -/
def mongoSink : Sink :=
  fun docs s => (Except.ok (), { s with sinkCalls := s.sinkCalls ++ [docs] })

/-- A storage sink whose write raises. -/
def failSink (e : PyErr) : Sink :=
  fun _ s => (Except.error e, s)

theorem stubFetch_returns (ents : List MovieEntity) :
    fetchReturns (stubFetch ents) ents :=
  fun s => ⟨s, rfl, rfl, rfl, rfl, rfl, Nat.le_refl _, rfl⟩

theorem failFetch_fails (e : PyErr) : fetchFails (failFetch e) e :=
  fun s => ⟨s, rfl, rfl, rfl, rfl, rfl, Nat.le_refl _, rfl⟩

theorem mongoSink_appends : sinkAppends mongoSink :=
  fun docs s => ⟨{ s with sinkCalls := s.sinkCalls ++ [docs] },
    rfl, rfl, rfl, rfl, rfl, Nat.le_refl _, rfl⟩

theorem failSink_fails (e : PyErr) : sinkFails (failSink e) e :=
  fun _ s => ⟨s, rfl, rfl, rfl, rfl, Nat.le_refl _, rfl⟩

/-- Characterization of a fully successful orchestrator run: for any
adapter returning `ents` and any acknowledging sink, the run returns the
flattened documents, appends exactly one PENDING/FINISHED pair to each
trace namespace with matching begin timestamps and end only at FINISHED,
records exactly one insert_many call carrying the documents, and takes
exactly one rate-limit sleep. -/
theorem run_ok_spec (platform : String) (page pagesize : Nat)
    (ents : List MovieEntity) (f : Fetch) (c : Sink) (s0 : SysState)
    (hf : fetchReturns f ents) (hc : sinkAppends c) :
    ∃ (e1 e2 : Nat) (sF : SysState),
      abstract_run_with_checkpoint platform c page pagesize f s0 =
        (Except.ok (ents.map asdict), sF) ∧
      sF.batchTrace = s0.batchTrace ++
        [⟨⟨"BATCH.TASK", s0.keyCtr⟩, platform, page, pagesize,
            Status.PENDING, s0.clock, none⟩,
         ⟨⟨"BATCH.TASK", s0.keyCtr⟩, platform, page, pagesize,
            Status.FINISHED, s0.clock, some e1⟩] ∧
      sF.dbTrace = s0.dbTrace ++
        [⟨⟨"DB.TASK", s0.keyCtr + 1⟩, platform, page, pagesize,
            Status.PENDING, e1 + 1, none⟩,
         ⟨⟨"DB.TASK", s0.keyCtr + 1⟩, platform, page, pagesize,
            Status.FINISHED, e1 + 1, some e2⟩] ∧
      sF.sinkCalls = s0.sinkCalls ++ [ents.map asdict] ∧
      sF.sleeps = s0.sleeps + 1 ∧
      s0.clock < e1 ∧ e1 + 1 < e2 := by
  simp only [abstract_run_with_checkpoint, generate_key, now,
    put_batch_trace, put_db_trace, sleep]
  obtain ⟨s4, hf4, hbt4, hdt4, hsk4, hkc4, hck4, hsl4⟩ := hf
    { clock := s0.clock + 1
      keyCtr := s0.keyCtr + 1
      batchTrace := s0.batchTrace ++
        [{ task_id := { category := "BATCH.TASK", serial := s0.keyCtr },
            source := platform, batch := page, pagesize := pagesize,
            status := Status.PENDING, beginTime := s0.clock, endTime := none }]
      dbTrace := s0.dbTrace
      sinkCalls := s0.sinkCalls
      snapshots := s0.snapshots
      sleeps := s0.sleeps }
  simp only at hbt4 hdt4 hsk4 hkc4 hck4 hsl4
  simp only [hf4, hbt4, hdt4, hsk4, hkc4, hsl4]
  obtain ⟨s10, hc10, hskA, hbtA, hdtA, hkcA, hckA, hslA⟩ := hc (List.map asdict ents)
    { clock := s4.clock + 1 + 1
      keyCtr := s0.keyCtr + 1 + 1
      batchTrace := s0.batchTrace ++
          [{ task_id := { category := "BATCH.TASK", serial := s0.keyCtr },
              source := platform, batch := page, pagesize := pagesize,
              status := Status.PENDING, beginTime := s0.clock, endTime := none }] ++
        [{ task_id := { category := "BATCH.TASK", serial := s0.keyCtr },
            source := platform, batch := page, pagesize := pagesize,
            status := Status.FINISHED, beginTime := s0.clock, endTime := some s4.clock }]
      dbTrace := s0.dbTrace ++
        [{ task_id := { category := "DB.TASK", serial := s0.keyCtr + 1 },
            source := platform, batch := page, pagesize := pagesize,
            status := Status.PENDING, beginTime := s4.clock + 1, endTime := none }]
      sinkCalls := s0.sinkCalls
      snapshots := s4.snapshots
      sleeps := s0.sleeps }
  simp only at hskA hbtA hdtA hkcA hckA hslA
  simp only [hc10, hskA, hbtA, hdtA, hkcA, hslA]
  refine ⟨s4.clock, s10.clock, _, rfl, ?_, ?_, ?_, ?_, ?_, ?_⟩
  · simp [List.append_assoc]
  · simp [List.append_assoc]
  · simp
  · simp
  · omega
  · omega

/-- Characterization of a run whose adapter fetch raises: the exception
propagates, the batch namespace gains exactly the orphaned PENDING
event, the persistence namespace gains nothing, the sink-call log is
untouched, and no rate-limit sleep is taken. -/
theorem run_fetchFail_spec (platform : String) (page pagesize : Nat)
    (e : PyErr) (f : Fetch) (c : Sink) (s0 : SysState)
    (hf : fetchFails f e) :
    ∃ sF, abstract_run_with_checkpoint platform c page pagesize f s0 =
        (Except.error e, sF) ∧
      sF.batchTrace = s0.batchTrace ++
        [⟨⟨"BATCH.TASK", s0.keyCtr⟩, platform, page, pagesize,
            Status.PENDING, s0.clock, none⟩] ∧
      sF.dbTrace = s0.dbTrace ∧
      sF.sinkCalls = s0.sinkCalls ∧
      sF.sleeps = s0.sleeps := by
  simp only [abstract_run_with_checkpoint, generate_key, now,
    put_batch_trace, put_db_trace, sleep]
  obtain ⟨s4, hf4, hbt4, hdt4, hsk4, hkc4, hck4, hsl4⟩ := hf
    { clock := s0.clock + 1
      keyCtr := s0.keyCtr + 1
      batchTrace := s0.batchTrace ++
        [{ task_id := { category := "BATCH.TASK", serial := s0.keyCtr },
            source := platform, batch := page, pagesize := pagesize,
            status := Status.PENDING, beginTime := s0.clock, endTime := none }]
      dbTrace := s0.dbTrace
      sinkCalls := s0.sinkCalls
      snapshots := s0.snapshots
      sleeps := s0.sleeps }
  simp only at hbt4 hdt4 hsk4 hkc4 hck4 hsl4
  simp only [hf4]
  exact ⟨s4, rfl, hbt4, hdt4, hsk4, hsl4⟩

/-- Characterization of a run whose sink write raises after a successful
fetch: the exception propagates, the batch namespace holds its complete
PENDING/FINISHED pair, the persistence namespace holds only the orphaned
PENDING event, and no rate-limit sleep is taken. -/
theorem run_sinkFail_spec (platform : String) (page pagesize : Nat)
    (ents : List MovieEntity) (e : PyErr) (f : Fetch) (c : Sink)
    (s0 : SysState) (hf : fetchReturns f ents) (hc : sinkFails c e) :
    ∃ (e1 : Nat) (sF : SysState),
      abstract_run_with_checkpoint platform c page pagesize f s0 =
        (Except.error e, sF) ∧
      sF.batchTrace = s0.batchTrace ++
        [⟨⟨"BATCH.TASK", s0.keyCtr⟩, platform, page, pagesize,
            Status.PENDING, s0.clock, none⟩,
         ⟨⟨"BATCH.TASK", s0.keyCtr⟩, platform, page, pagesize,
            Status.FINISHED, s0.clock, some e1⟩] ∧
      sF.dbTrace = s0.dbTrace ++
        [⟨⟨"DB.TASK", s0.keyCtr + 1⟩, platform, page, pagesize,
            Status.PENDING, e1 + 1, none⟩] ∧
      sF.sleeps = s0.sleeps := by
  simp only [abstract_run_with_checkpoint, generate_key, now,
    put_batch_trace, put_db_trace, sleep]
  obtain ⟨s4, hf4, hbt4, hdt4, hsk4, hkc4, hck4, hsl4⟩ := hf
    { clock := s0.clock + 1
      keyCtr := s0.keyCtr + 1
      batchTrace := s0.batchTrace ++
        [{ task_id := { category := "BATCH.TASK", serial := s0.keyCtr },
            source := platform, batch := page, pagesize := pagesize,
            status := Status.PENDING, beginTime := s0.clock, endTime := none }]
      dbTrace := s0.dbTrace
      sinkCalls := s0.sinkCalls
      snapshots := s0.snapshots
      sleeps := s0.sleeps }
  simp only at hbt4 hdt4 hsk4 hkc4 hck4 hsl4
  simp only [hf4, hbt4, hdt4, hsk4, hkc4, hsl4]
  obtain ⟨sE, hcE, hbtE, hdtE, hkcE, hckE, hslE⟩ := hc (List.map asdict ents)
    { clock := s4.clock + 1 + 1
      keyCtr := s0.keyCtr + 1 + 1
      batchTrace := s0.batchTrace ++
          [{ task_id := { category := "BATCH.TASK", serial := s0.keyCtr },
              source := platform, batch := page, pagesize := pagesize,
              status := Status.PENDING, beginTime := s0.clock, endTime := none }] ++
        [{ task_id := { category := "BATCH.TASK", serial := s0.keyCtr },
            source := platform, batch := page, pagesize := pagesize,
            status := Status.FINISHED, beginTime := s0.clock, endTime := some s4.clock }]
      dbTrace := s0.dbTrace ++
        [{ task_id := { category := "DB.TASK", serial := s0.keyCtr + 1 },
            source := platform, batch := page, pagesize := pagesize,
            status := Status.PENDING, beginTime := s4.clock + 1, endTime := none }]
      sinkCalls := s0.sinkCalls
      snapshots := s4.snapshots
      sleeps := s0.sleeps }
  simp only at hbtE hdtE hkcE hckE hslE
  simp only [hcE]
  refine ⟨s4.clock, sE, rfl, ?_, ?_, ?_⟩
  · rw [hbtE]
    simp [List.append_assoc]
  · rw [hdtE]
  · rw [hslE]

/-- All-or-nothing join: if any element's task raises, the whole
`gatherE` raises; no partial result list is produced. -/
theorem gatherE_error_of_mem {α β : Type} (f : α → Except PyErr β)
    (l : List α) (x : α) (e : PyErr) (hx : x ∈ l)
    (hf : f x = Except.error e) :
    ∃ e2, gatherE f l = Except.error e2 := by
  induction l with
  | nil => cases hx
  | cons a as ih =>
    cases hx with
    | head => exact ⟨e, by simp [gatherE, hf]⟩
    | tail _ hmem =>
      obtain ⟨e2, h2⟩ := ih hmem
      cases hfa : f a with
      | error eA => exact ⟨eA, by simp [gatherE, hfa]⟩
      | ok y => exact ⟨e2, by simp [gatherE, hfa, h2]⟩

/-- Sample canonical entity used by concrete witnesses. -/
def entA : MovieEntity :=
  { title := "Alpha", cover_url := "a.png", intro := "first",
    score := 8, actors := ["a1"], release_date := "2020",
    metadata := [("source", "stub")] }

/-- Second sample canonical entity used by concrete witnesses. -/
def entB : MovieEntity :=
  { title := "Beta", cover_url := "b.png", intro := "second",
    score := -1, actors := [], release_date := "2021",
    metadata := [("source", "stub")] }

/-- C1: for every page and every adapter whose fetch returns K entities
without failing, a single orchestrator run persists exactly K records to
the storage sink and emits exactly one PENDING and one FINISHED event in
the batch trace namespace and exactly one PENDING and one FINISHED event
in the persistence trace namespace, with the end timestamp at least the
begin timestamp in both pairs. -/
theorem C1_run_persists_K_and_one_trace_pair_each (platform : String)
    (page pagesize : Nat) (ents : List MovieEntity) (f : Fetch) (c : Sink)
    (s0 : SysState) (hf : fetchReturns f ents) (hc : sinkAppends c) :
    ∃ (docs : List Document) (b1 e1 b2 e2 : Nat) (sF : SysState),
      abstract_run_with_checkpoint platform c page pagesize f s0 =
        (Except.ok docs, sF) ∧
      docs.length = ents.length ∧
      sF.sinkCalls = s0.sinkCalls ++ [docs] ∧
      sF.batchTrace = s0.batchTrace ++
        [⟨⟨"BATCH.TASK", s0.keyCtr⟩, platform, page, pagesize,
            Status.PENDING, b1, none⟩,
         ⟨⟨"BATCH.TASK", s0.keyCtr⟩, platform, page, pagesize,
            Status.FINISHED, b1, some e1⟩] ∧
      sF.dbTrace = s0.dbTrace ++
        [⟨⟨"DB.TASK", s0.keyCtr + 1⟩, platform, page, pagesize,
            Status.PENDING, b2, none⟩,
         ⟨⟨"DB.TASK", s0.keyCtr + 1⟩, platform, page, pagesize,
            Status.FINISHED, b2, some e2⟩] ∧
      b1 ≤ e1 ∧ b2 ≤ e2 := by
  obtain ⟨e1, e2, sF, hrun, hbt, hdt, hsink, hsl, h1, h2⟩ :=
    run_ok_spec platform page pagesize ents f c s0 hf hc
  exact ⟨ents.map asdict, s0.clock, e1, e1 + 1, e2, sF, hrun,
    by simp, hsink, hbt, hdt, by omega, by omega⟩

/-- Witness for C1 at a stubbed two-entity adapter and the appending
sink from the empty state. -/
theorem C1_witness :
    ∃ (docs : List Document) (b1 e1 b2 e2 : Nat) (sF : SysState),
      abstract_run_with_checkpoint "bilibili" mongoSink 1 60
          (stubFetch [entA, entB]) initState =
        (Except.ok docs, sF) ∧
      docs.length = [entA, entB].length ∧
      sF.sinkCalls = initState.sinkCalls ++ [docs] ∧
      sF.batchTrace = initState.batchTrace ++
        [⟨⟨"BATCH.TASK", initState.keyCtr⟩, "bilibili", 1, 60,
            Status.PENDING, b1, none⟩,
         ⟨⟨"BATCH.TASK", initState.keyCtr⟩, "bilibili", 1, 60,
            Status.FINISHED, b1, some e1⟩] ∧
      sF.dbTrace = initState.dbTrace ++
        [⟨⟨"DB.TASK", initState.keyCtr + 1⟩, "bilibili", 1, 60,
            Status.PENDING, b2, none⟩,
         ⟨⟨"DB.TASK", initState.keyCtr + 1⟩, "bilibili", 1, 60,
            Status.FINISHED, b2, some e2⟩] ∧
      b1 ≤ e1 ∧ b2 ≤ e2 :=
  C1_run_persists_K_and_one_trace_pair_each "bilibili" 1 60 [entA, entB]
    (stubFetch [entA, entB]) mongoSink initState
    (stubFetch_returns [entA, entB]) mongoSink_appends

/-- C2: when the adapter fetch raises, the batch trace for the run's
task id holds the PENDING event and no FINISHED event, no persistence
trace event is created, and the sink is never called. -/
theorem C2_fetch_error_orphans_pending (platform : String)
    (page pagesize : Nat) (e : PyErr) (f : Fetch) (c : Sink) (s0 : SysState)
    (hf : fetchFails f e)
    (hfresh : ∀ ev ∈ s0.batchTrace, ev.task_id.serial < s0.keyCtr) :
    ∃ sF,
      abstract_run_with_checkpoint platform c page pagesize f s0 =
        (Except.error e, sF) ∧
      sF.batchTrace.filter
          (fun ev => ev.task_id = (⟨"BATCH.TASK", s0.keyCtr⟩ : TaskId)) =
        [⟨⟨"BATCH.TASK", s0.keyCtr⟩, platform, page, pagesize,
            Status.PENDING, s0.clock, none⟩] ∧
      sF.dbTrace = s0.dbTrace ∧
      sF.sinkCalls = s0.sinkCalls := by
  obtain ⟨sF, hrun, hbt, hdt, hsk, hsl⟩ :=
    run_fetchFail_spec platform page pagesize e f c s0 hf
  refine ⟨sF, hrun, ?_, hdt, hsk⟩
  rw [hbt, List.filter_append]
  have h1 : s0.batchTrace.filter
      (fun ev => ev.task_id = (⟨"BATCH.TASK", s0.keyCtr⟩ : TaskId)) = [] := by
    rw [List.filter_eq_nil_iff]
    intro ev hev
    have hser := hfresh ev hev
    simp only [decide_eq_true_eq]
    intro hteq
    rw [hteq] at hser
    exact absurd hser (by simp)
  rw [h1]
  simp

/-- Witness for C2 at an always-raising adapter from the empty state. -/
theorem C2_witness :
    ∃ sF,
      abstract_run_with_checkpoint "bilibili" mongoSink 3 60
          (failFetch PyErr.transportError) initState =
        (Except.error PyErr.transportError, sF) ∧
      sF.batchTrace.filter
          (fun ev => ev.task_id = (⟨"BATCH.TASK", initState.keyCtr⟩ : TaskId)) =
        [⟨⟨"BATCH.TASK", initState.keyCtr⟩, "bilibili", 3, 60,
            Status.PENDING, initState.clock, none⟩] ∧
      sF.dbTrace = initState.dbTrace ∧
      sF.sinkCalls = initState.sinkCalls :=
  C2_fetch_error_orphans_pending "bilibili" 3 60 PyErr.transportError
    (failFetch PyErr.transportError) mongoSink initState
    (failFetch_fails PyErr.transportError) (by intro ev hev; cases hev)

/-- C3: when the fetch succeeds with zero entities, the sink still
receives an insert_many call with an empty record list, the persistence
PENDING and FINISHED events are still emitted, and the fixed post-batch
delay is still applied before the run returns. -/
theorem C3_zero_entities_still_persist_trace_delay (platform : String)
    (page pagesize : Nat) (f : Fetch) (c : Sink) (s0 : SysState)
    (hf : fetchReturns f []) (hc : sinkAppends c) :
    ∃ (b2 e2 : Nat) (sF : SysState),
      abstract_run_with_checkpoint platform c page pagesize f s0 =
        (Except.ok [], sF) ∧
      sF.sinkCalls = s0.sinkCalls ++ [[]] ∧
      sF.dbTrace = s0.dbTrace ++
        [⟨⟨"DB.TASK", s0.keyCtr + 1⟩, platform, page, pagesize,
            Status.PENDING, b2, none⟩,
         ⟨⟨"DB.TASK", s0.keyCtr + 1⟩, platform, page, pagesize,
            Status.FINISHED, b2, some e2⟩] ∧
      b2 ≤ e2 ∧
      sF.sleeps = s0.sleeps + 1 := by
  obtain ⟨e1, e2, sF, hrun, hbt, hdt, hsink, hsl, h1, h2⟩ :=
    run_ok_spec platform page pagesize [] f c s0 hf hc
  simp only [List.map_nil] at hrun hsink
  exact ⟨e1 + 1, e2, sF, hrun, hsink, hdt, by omega, hsl⟩

/-- Witness for C3 at a stubbed empty adapter from the empty state. -/
theorem C3_witness :
    ∃ (b2 e2 : Nat) (sF : SysState),
      abstract_run_with_checkpoint "iqiyi" mongoSink 5 24
          (stubFetch []) initState =
        (Except.ok [], sF) ∧
      sF.sinkCalls = initState.sinkCalls ++ [[]] ∧
      sF.dbTrace = initState.dbTrace ++
        [⟨⟨"DB.TASK", initState.keyCtr + 1⟩, "iqiyi", 5, 24,
            Status.PENDING, b2, none⟩,
         ⟨⟨"DB.TASK", initState.keyCtr + 1⟩, "iqiyi", 5, 24,
            Status.FINISHED, b2, some e2⟩] ∧
      b2 ≤ e2 ∧
      sF.sleeps = initState.sleeps + 1 :=
  C3_zero_entities_still_persist_trace_delay "iqiyi" 5 24 (stubFetch [])
    mongoSink initState (stubFetch_returns []) mongoSink_appends

/-- Observable Python value a successful orchestrator run hands to its
caller: either a bare count or a list of persisted records. -/
inductive PyRet where
  | count (n : Nat)
  | records (docs : List Document)
deriving DecidableEq, Repr

/-- The value a non-raising `abstract_run_with_checkpoint` call returns
to its caller (none when it raises). -/
def runReturnValue (platform : String) (c : Sink) (page pagesize : Nat)
    (f : Fetch) (s0 : SysState) : Option PyRet :=
  match abstract_run_with_checkpoint platform c page pagesize f s0 with
  | (Except.ok docs, _) => some (PyRet.records docs)
  | (Except.error _, _) => none

/-- C5 counterexample: a run over a stubbed two-entity adapter returns
the list of the two persisted records, not the number 2 the claim reads
off the spec signature; the signature in the source is
`-> list[dict[str, any]]`, not a count. -/
theorem C5_counterexample :
    runReturnValue "bilibili" mongoSink 1 60 (stubFetch [entA, entB]) initState =
      some (PyRet.records [entA, entB]) ∧
    runReturnValue "bilibili" mongoSink 1 60 (stubFetch [entA, entB]) initState ≠
      some (PyRet.count 2) := by
  constructor
  · rfl
  · decide

/-- C5 amended: a successful run returns the full list of persisted
records (one per fetched entity), from whose length the caller can
recover the count of persisted records. -/
theorem C5_amended_run_returns_document_list (platform : String)
    (page pagesize : Nat) (ents : List MovieEntity) (f : Fetch) (c : Sink)
    (s0 : SysState) (hf : fetchReturns f ents) (hc : sinkAppends c) :
    ∃ sF,
      abstract_run_with_checkpoint platform c page pagesize f s0 =
        (Except.ok (ents.map asdict), sF) ∧
      runReturnValue platform c page pagesize f s0 =
        some (PyRet.records (ents.map asdict)) ∧
      (ents.map asdict).length = ents.length := by
  obtain ⟨e1, e2, sF, hrun, _⟩ :=
    run_ok_spec platform page pagesize ents f c s0 hf hc
  exact ⟨sF, hrun, by simp [runReturnValue, hrun], by simp⟩

/-- Witness for the amended C5 at a stubbed two-entity adapter. -/
theorem C5_amended_witness :
    ∃ sF,
      abstract_run_with_checkpoint "tencent" mongoSink 2 30
          (stubFetch [entB, entA]) initState =
        (Except.ok ([entB, entA].map asdict), sF) ∧
      runReturnValue "tencent" mongoSink 2 30 (stubFetch [entB, entA]) initState =
        some (PyRet.records ([entB, entA].map asdict)) ∧
      ([entB, entA].map asdict).length = [entB, entA].length :=
  C5_amended_run_returns_document_list "tencent" 2 30 [entB, entA]
    (stubFetch [entB, entA]) mongoSink initState
    (stubFetch_returns [entB, entA]) mongoSink_appends

/-- C9: for each task id the run allocates, the trace events scoped to
that id move only from PENDING to FINISHED: the PENDING event comes
first carrying the begin timestamp and no end timestamp, and the
FINISHED event carries the same begin timestamp plus an end timestamp. -/
theorem C9_task_lifecycle_pending_then_finished (platform : String)
    (page pagesize : Nat) (ents : List MovieEntity) (f : Fetch) (c : Sink)
    (s0 : SysState) (hf : fetchReturns f ents) (hc : sinkAppends c)
    (hfreshB : ∀ ev ∈ s0.batchTrace, ev.task_id.serial < s0.keyCtr)
    (hfreshD : ∀ ev ∈ s0.dbTrace, ev.task_id.serial < s0.keyCtr) :
    ∃ (e1 b2 e2 : Nat) (sF : SysState),
      abstract_run_with_checkpoint platform c page pagesize f s0 =
        (Except.ok (ents.map asdict), sF) ∧
      sF.batchTrace.filter
          (fun ev => ev.task_id = (⟨"BATCH.TASK", s0.keyCtr⟩ : TaskId)) =
        [⟨⟨"BATCH.TASK", s0.keyCtr⟩, platform, page, pagesize,
            Status.PENDING, s0.clock, none⟩,
         ⟨⟨"BATCH.TASK", s0.keyCtr⟩, platform, page, pagesize,
            Status.FINISHED, s0.clock, some e1⟩] ∧
      sF.dbTrace.filter
          (fun ev => ev.task_id = (⟨"DB.TASK", s0.keyCtr + 1⟩ : TaskId)) =
        [⟨⟨"DB.TASK", s0.keyCtr + 1⟩, platform, page, pagesize,
            Status.PENDING, b2, none⟩,
         ⟨⟨"DB.TASK", s0.keyCtr + 1⟩, platform, page, pagesize,
            Status.FINISHED, b2, some e2⟩] := by
  obtain ⟨e1, e2, sF, hrun, hbt, hdt, hsink, hsl, h1, h2⟩ :=
    run_ok_spec platform page pagesize ents f c s0 hf hc
  refine ⟨e1, e1 + 1, e2, sF, hrun, ?_, ?_⟩
  · rw [hbt, List.filter_append]
    have hnil : s0.batchTrace.filter
        (fun ev => ev.task_id = (⟨"BATCH.TASK", s0.keyCtr⟩ : TaskId)) = [] := by
      rw [List.filter_eq_nil_iff]
      intro ev hev
      have hser := hfreshB ev hev
      simp only [decide_eq_true_eq]
      intro hteq
      rw [hteq] at hser
      exact absurd hser (by simp)
    rw [hnil]
    simp
  · rw [hdt, List.filter_append]
    have hnil : s0.dbTrace.filter
        (fun ev => ev.task_id = (⟨"DB.TASK", s0.keyCtr + 1⟩ : TaskId)) = [] := by
      rw [List.filter_eq_nil_iff]
      intro ev hev
      have hser := hfreshD ev hev
      simp only [decide_eq_true_eq]
      intro hteq
      rw [hteq] at hser
      exact absurd hser (by simp)
    rw [hnil]
    simp

/-- Witness for C9 at a stubbed one-entity adapter from the empty state. -/
theorem C9_witness :
    ∃ (e1 b2 e2 : Nat) (sF : SysState),
      abstract_run_with_checkpoint "iqiyi" mongoSink 4 24
          (stubFetch [entA]) initState =
        (Except.ok ([entA].map asdict), sF) ∧
      sF.batchTrace.filter
          (fun ev => ev.task_id = (⟨"BATCH.TASK", initState.keyCtr⟩ : TaskId)) =
        [⟨⟨"BATCH.TASK", initState.keyCtr⟩, "iqiyi", 4, 24,
            Status.PENDING, initState.clock, none⟩,
         ⟨⟨"BATCH.TASK", initState.keyCtr⟩, "iqiyi", 4, 24,
            Status.FINISHED, initState.clock, some e1⟩] ∧
      sF.dbTrace.filter
          (fun ev => ev.task_id = (⟨"DB.TASK", initState.keyCtr + 1⟩ : TaskId)) =
        [⟨⟨"DB.TASK", initState.keyCtr + 1⟩, "iqiyi", 4, 24,
            Status.PENDING, b2, none⟩,
         ⟨⟨"DB.TASK", initState.keyCtr + 1⟩, "iqiyi", 4, 24,
            Status.FINISHED, b2, some e2⟩] :=
  C9_task_lifecycle_pending_then_finished "iqiyi" 4 24 [entA]
    (stubFetch [entA]) mongoSink initState (stubFetch_returns [entA])
    mongoSink_appends (by intro ev hev; cases hev) (by intro ev hev; cases hev)

/-- C10: the fixed post-batch delay runs only on the fully successful
path: whether the adapter fetch raises or the sink write raises, the
error propagates to the caller and no rate-limit sleep is taken. -/
theorem C10_delay_only_on_success (platform : String) (page pagesize : Nat)
    (ents : List MovieEntity) (eF eS : PyErr) (f : Fetch) (c : Sink)
    (s0 : SysState) :
    (fetchFails f eF →
      ∃ sF, abstract_run_with_checkpoint platform c page pagesize f s0 =
          (Except.error eF, sF) ∧ sF.sleeps = s0.sleeps) ∧
    (fetchReturns f ents → sinkFails c eS →
      ∃ sF, abstract_run_with_checkpoint platform c page pagesize f s0 =
          (Except.error eS, sF) ∧ sF.sleeps = s0.sleeps) := by
  constructor
  · intro hf
    obtain ⟨sF, hrun, hbt, hdt, hsk, hsl⟩ :=
      run_fetchFail_spec platform page pagesize eF f c s0 hf
    exact ⟨sF, hrun, hsl⟩
  · intro hf hc
    obtain ⟨e1, sF, hrun, hbt, hdt, hsl⟩ :=
      run_sinkFail_spec platform page pagesize ents eS f c s0 hf hc
    exact ⟨sF, hrun, hsl⟩

/-- Witness for C10: a raising adapter and a raising sink, each from
the empty state, propagate their error with no sleep taken. -/
theorem C10_witness :
    (∃ sF, abstract_run_with_checkpoint "tencent" mongoSink 3 30
        (failFetch PyErr.transportError) initState =
        (Except.error PyErr.transportError, sF) ∧ sF.sleeps = initState.sleeps) ∧
    (∃ sF, abstract_run_with_checkpoint "tencent" (failSink PyErr.persistenceError)
        3 30 (stubFetch [entA]) initState =
        (Except.error PyErr.persistenceError, sF) ∧ sF.sleeps = initState.sleeps) :=
  ⟨(C10_delay_only_on_success "tencent" 3 30 [entA] PyErr.transportError
      PyErr.persistenceError (failFetch PyErr.transportError) mongoSink
      initState).1 (failFetch_fails PyErr.transportError),
   (C10_delay_only_on_success "tencent" 3 30 [entA] PyErr.transportError
      PyErr.persistenceError (stubFetch [entA])
      (failSink PyErr.persistenceError) initState).2
     (stubFetch_returns [entA]) (failSink_fails PyErr.persistenceError)⟩

/-- Whether a fetch outcome is a raised exception. -/
def raisesB {α : Type} : Except PyErr α → Bool
  | Except.error _ => true
  | Except.ok _ => false

/-- A concrete non-success Bilibili response (HTTP 404, empty body). -/
def resp404 : Bilibili.Resp := { status := 404, body := { data := none } }

/-- An enrichment oracle whose every sub-request raises. -/
def downOracle : String → Except PyErr (List String) :=
  fun _ => Except.error PyErr.transportError

/-- C4 counterexample: on a non-200 HTTP status the Bilibili fetch does
not fail terminally — it completes normally with a salvaged empty
result, falsifying the claim for that adapter. -/
theorem C4_counterexample :
    (Bilibili.raw_fetch_async downOracle resp404 3 Bilibili.params).2 =
      Except.ok [] ∧
    raisesB (Bilibili.raw_fetch_async downOracle resp404 3 Bilibili.params).2 =
      false := by
  exact ⟨rfl, rfl⟩

/-- A concrete Tencent response with a non-zero application return
code. -/
def tRawErr : Tencent.Raw := { ret := 1, msg := "err", cardList := [] }

/-- C4 amended: a non-success application-level return code (Tencent's
`ret`) makes the fetch raise terminally, but a non-200 HTTP status makes
the Bilibili fetch complete normally with an empty list instead of
failing. -/
theorem C4_amended_error_policy :
    (∀ (detail : String → Tencent.Item → Except PyErr MovieEntity)
       (raw : Tencent.Raw) (page : Nat) (shared : Tencent.Payload),
       raw.ret ≠ 0 →
       (Tencent.get_movies detail raw page shared).2 =
         Except.error (PyErr.valueError raw.msg)) ∧
    (∀ (fetch_actors : String → Except PyErr (List String))
       (resp : Bilibili.Resp) (page : Nat) (shared : Bilibili.Params),
       resp.status ≠ 200 →
       (Bilibili.raw_fetch_async fetch_actors resp page shared).2 =
         Except.ok []) := by
  constructor
  · intro detail raw page shared hret
    simp [Tencent.get_movies, hret]
  · intro fa resp page shared hst
    simp [Bilibili.raw_fetch_async, hst]

/-- Witness for the amended C4 at a ret=1 Tencent response and a 404
Bilibili response. -/
theorem C4_witness :
    (Tencent.get_movies (fun _ _ => Except.error PyErr.transportError)
        tRawErr 2 Tencent.payload).2 =
      Except.error (PyErr.valueError tRawErr.msg) ∧
    (Bilibili.raw_fetch_async downOracle resp404 5 Bilibili.params).2 =
      Except.ok [] :=
  ⟨C4_amended_error_policy.1 (fun _ _ => Except.error PyErr.transportError)
      tRawErr 2 Tencent.payload (by decide),
   C4_amended_error_policy.2 downOracle resp404 5 Bilibili.params (by decide)⟩

/-- C7: behavior of the score coercion at the claim's inputs — numeric
strings convert ("8.5" to 8.5), ValueError cases ("N/A", the empty
string) return the sentinel -1.0, but None raises an uncaught TypeError
because only ValueError is excepted, contradicting the function's own
docstring (conversion failure returns the default). -/
theorem C7_score_coercion_behavior :
    safe_float_conversion (PyValue.str "8.5") = Except.ok (17 / 2 : Rat) ∧
    safe_float_conversion (PyValue.str "N/A") = Except.ok (-1) ∧
    safe_float_conversion (PyValue.str "") = Except.ok (-1) ∧
    safe_float_conversion PyValue.pyNone =
      Except.error
        (PyErr.typeError "float() argument must be a string or a number") := by
  refine ⟨?_, ?_, ?_, ?_⟩
  · have h : pyFloatOfString "8.5" =
        some (((8 : Nat) : Rat) + ((5 : Nat) : Rat) / (10 : Rat) ^ 1) := rfl
    simp only [safe_float_conversion, pyFloatBuiltin, h]
    norm_num
  · rfl
  · rfl
  · rfl

/-- C8 counterexample: one Bilibili fetch for page 3 leaves the shared
class-level params changed — `page` was written in place on the shared
structure, so the shared configuration is not unchanged after the call. -/
theorem C8_counterexample :
    (Bilibili.raw_fetch_async downOracle resp404 3 Bilibili.params).1 ≠
      Bilibili.params ∧
    (Bilibili.raw_fetch_async downOracle resp404 3 Bilibili.params).1.page = 3 ∧
    Bilibili.params.page = 0 := by
  refine ⟨by decide, by decide, by decide⟩

/-- C8 amended: no adapter copies its shared per-source request
configuration; every fetch writes the page of the call (and for
Bilibili the page size) into the shared structure in place, so after
the call the shared configuration carries that call's page. -/
theorem C8_amended_shared_config_mutated_in_place (page : Nat)
    (fa : String → Except PyErr (List String)) (bresp : Bilibili.Resp)
    (bshared : Bilibili.Params)
    (detail : String → Tencent.Item → Except PyErr MovieEntity)
    (traw : Tencent.Raw) (tshared : Tencent.Payload)
    (iraw : IQiYi.Raw) (ishared : IQiYi.Params) :
    (Bilibili.raw_fetch_async fa bresp page bshared).1 =
      { bshared with page := (page : Int), pagesize := (Bilibili.pagesize : Int) } ∧
    (Tencent.get_movies detail traw page tshared).1 =
      { tshared with
          page_context := { tshared.page_context with page_index := toString page }
          page_params := { tshared.page_params with page := toString page }
          page_bypass_params :=
            { tshared.page_bypass_params with
                params := { tshared.page_bypass_params.params with
                    page := toString page } } } ∧
    (IQiYi.raw_fetch_async iraw page ishared).1 =
      { ishared with page_id := toString page } := by
  refine ⟨?_, ?_, ?_⟩
  · unfold Bilibili.raw_fetch_async
    split <;> rfl
  · unfold Tencent.get_movies
    split
    · rfl
    · split
      · rfl
      · split <;> rfl
  · rfl

/-- C6: a single failing enrichment sub-request fails the whole fetch —
no partial list of successfully enriched items is ever returned, for the
Bilibili actor enrichment and the Tencent detail enrichment alike — and
the orchestrator driving such a failed fetch records no FINISHED batch
trace event for that invocation. -/
theorem C6_enrichment_failure_is_total
    (fetch_actors : String → Except PyErr (List String))
    (resp : Bilibili.Resp) (page : Nat) (shared : Bilibili.Params)
    (items : List Bilibili.Item) (x : Bilibili.Item) (e : PyErr)
    (detail : String → Tencent.Item → Except PyErr MovieEntity)
    (traw : Tencent.Raw) (card : Tencent.Card) (tx : Tencent.Item)
    (te : PyErr) (tshared : Tencent.Payload) (c : Sink) (s0 : SysState)
    (hstatus : resp.status = 200)
    (hbody : resp.body = { data := some { listField := some items } })
    (hx : x ∈ items)
    (hfail : fetch_actors (toString x.first_ep_ep_id) = Except.error e)
    (hret : traw.ret = 0)
    (hcard : traw.cardList.get? 1 = some card)
    (htx : tx ∈ card.cards)
    (htfail : detail tx.cid tx = Except.error te) :
    (∀ l, (Bilibili.raw_fetch_async fetch_actors resp page shared).2 ≠
      Except.ok l) ∧
    (∀ l, (Tencent.get_movies detail traw page tshared).2 ≠ Except.ok l) ∧
    ∃ (e2 : PyErr) (sF : SysState),
      abstract_run_with_checkpoint Bilibili.platform c page Bilibili.pagesize
          (fun s => ((Bilibili.raw_fetch_async fetch_actors resp page shared).2, s))
          s0 =
        (Except.error e2, sF) ∧
      sF.batchTrace = s0.batchTrace ++
        [⟨⟨"BATCH.TASK", s0.keyCtr⟩, Bilibili.platform, page, Bilibili.pagesize,
            Status.PENDING, s0.clock, none⟩] ∧
      ∀ ev ∈ sF.batchTrace, ev.status = Status.FINISHED →
        ev ∈ s0.batchTrace := by
  have hcx : Bilibili.create_movie_entity fetch_actors x
      (toString x.first_ep_ep_id) = Except.error e := by
    simp [Bilibili.create_movie_entity, hfail, Bind.bind, Except.bind]
  obtain ⟨eB, hB⟩ := gatherE_error_of_mem
    (fun item => Bilibili.create_movie_entity fetch_actors item
      (toString item.first_ep_ep_id)) items x e hx hcx
  have hfetch : (Bilibili.raw_fetch_async fetch_actors resp page shared).2 =
      Except.error eB := by
    simp [Bilibili.raw_fetch_async, hstatus, Bilibili.handle_data, hbody, hB]
  obtain ⟨eT, hT⟩ := gatherE_error_of_mem
    (fun item => detail item.cid item) card.cards tx te htx htfail
  have hcard2 : traw.cardList[1]? = some card := by
    rw [← List.get?_eq_getElem?]
    exact hcard
  have htget : (Tencent.get_movies detail traw page tshared).2 =
      Except.error eT := by
    simp [Tencent.get_movies, hret, hcard2, hT]
  have hwrap : fetchFails
      (fun s => ((Bilibili.raw_fetch_async fetch_actors resp page shared).2, s))
      eB := by
    intro s
    exact ⟨s, by rw [hfetch], rfl, rfl, rfl, rfl, Nat.le_refl _, rfl⟩
  obtain ⟨sF, hrun, hbt, hdt, hsk, hsl⟩ :=
    run_fetchFail_spec Bilibili.platform page Bilibili.pagesize eB
      (fun s => ((Bilibili.raw_fetch_async fetch_actors resp page shared).2, s))
      c s0 hwrap
  refine ⟨?_, ?_, eB, sF, hrun, hbt, ?_⟩
  · intro l
    rw [hfetch]
    simp
  · intro l
    rw [htget]
    simp
  · intro ev hev hstF
    rw [hbt] at hev
    rcases List.mem_append.mp hev with hin | hone
    · exact hin
    · simp only [List.mem_singleton] at hone
      rw [hone] at hstF
      cases hstF

/-- Concrete Bilibili list item for the C6 witness. -/
def bItemX : Bilibili.Item :=
  { first_ep_ep_id := 77, title := "T", cover := "c.png", subTitle := none,
    score := none, index_show := "x", order := "y", link := "u" }

/-- Concrete 200-status Bilibili response containing one item. -/
def resp200 : Bilibili.Resp :=
  { status := 200, body := { data := some { listField := some [bItemX] } } }

/-- Concrete Tencent card item for the C6 witness. -/
def tItemX : Tencent.Item :=
  { cid := "c1", title := "T", main_genre := "drama", area_name := "cn",
    epsode_pubtime := "2020" }

/-- Concrete Tencent response whose CardList second entry holds one
card. -/
def tRaw0 : Tencent.Raw :=
  { ret := 0, msg := "", cardList := [{ cards := [] }, { cards := [tItemX] }] }

/-- A detail-enrichment oracle whose every sub-request raises. -/
def downDetail : String → Tencent.Item → Except PyErr MovieEntity :=
  fun _ _ => Except.error PyErr.transportError

/-- Witness for C6 at a one-item Bilibili page whose only actor
enrichment raises and a one-item Tencent card whose only detail
enrichment raises, from the empty state. -/
theorem C6_witness :
    (∀ l, (Bilibili.raw_fetch_async downOracle resp200 1 Bilibili.params).2 ≠
      Except.ok l) ∧
    (∀ l, (Tencent.get_movies downDetail tRaw0 1 Tencent.payload).2 ≠
      Except.ok l) ∧
    ∃ (e2 : PyErr) (sF : SysState),
      abstract_run_with_checkpoint Bilibili.platform mongoSink 1
          Bilibili.pagesize
          (fun s =>
            ((Bilibili.raw_fetch_async downOracle resp200 1 Bilibili.params).2, s))
          initState =
        (Except.error e2, sF) ∧
      sF.batchTrace = initState.batchTrace ++
        [⟨⟨"BATCH.TASK", initState.keyCtr⟩, Bilibili.platform, 1,
            Bilibili.pagesize, Status.PENDING, initState.clock, none⟩] ∧
      ∀ ev ∈ sF.batchTrace, ev.status = Status.FINISHED →
        ev ∈ initState.batchTrace :=
  C6_enrichment_failure_is_total downOracle resp200 1 Bilibili.params
    [bItemX] bItemX PyErr.transportError downDetail tRaw0
    { cards := [tItemX] } tItemX PyErr.transportError Tencent.payload
    mongoSink initState rfl rfl (by simp) rfl rfl rfl (by simp) rfl
